import Mathlib

/-!
Shallow embedding of the `RabbitMQService` consumer
(src/services/rabbitmq.services.ts) of the sasuai-consumer-notification
repository, together with theorems settling the spec claims about it.

Modelling conventions:
* Broker handles (connection, channel, heartbeat timer) are modelled by
  `Option Nat` / `Bool` fields of an explicit supervisor state `SupState`;
  the TypeScript fields `this.connection`, `this.channel`,
  `this.heartbeatInterval`, `this.isConnecting`, `this.reconnectAttempts`
  map one to one onto it.
* Effectful broker calls (amqplib.connect / createChannel / prefetch /
  assertQueue, channel.consume, channel.checkQueue, close calls) are
  modelled by oracle parameters saying whether the awaited call resolves
  or throws, since their outcome is decided by the external broker.
* A JavaScript exception is an `Except.error`; `await` sequencing becomes
  ordinary sequencing because the event loop serialises all state access.
* `JSON.parse` of the message body is modelled by its result: `none` when
  the body is not valid JSON (parse throws), `some v` when it yields the
  decoded JavaScript value `v` (a `JsValue`).
-/

namespace RabbitMQ

/-- A decoded JavaScript value as produced by `JSON.parse`: null, boolean,
number, string, array or object (objects from `JSON.parse` have distinct
keys). Numbers are modelled as integers; no claim depends on fractional
values. -/
inductive JsValue where
  | vNull : JsValue
  | vBool : Bool → JsValue
  | vNum : Int → JsValue
  | vStr : String → JsValue
  | vArr : List JsValue → JsValue
  | vObj : List (String × JsValue) → JsValue

/-- JavaScript truthiness of a `JSON.parse` result
(`null`, `false`, `0` and `""` are falsy). -/
def jsTruthy : JsValue → Bool
  | .vNull => false
  | .vBool b => b
  | .vNum n => n != 0
  | .vStr s => s != ""
  | .vArr _ => true
  | .vObj _ => true

/-- Whether `typeof v === 'object'` holds in JavaScript: true for `null`,
arrays and objects, false for booleans, numbers and strings. -/
def jsTypeofObject : JsValue → Bool
  | .vNull => true
  | .vBool _ => false
  | .vNum _ => false
  | .vStr _ => false
  | .vArr _ => true
  | .vObj _ => true

/-- Property access `v[k]`: `some` the field value on an object that has the
key, `none` (JavaScript `undefined`) otherwise. -/
def jsGet : JsValue → String → Option JsValue
  | .vObj fields, k => (fields.find? (fun p => p.1 == k)).map (·.2)
  | _, _ => none

/-- The check `Array.isArray(x) && x.length !== 0` applied to a property
access result, i.e. the negation of the guard
`!Array.isArray(payload.numbers) || payload.numbers.length === 0`
(rabbitmq.services.ts line 217). -/
def isNonEmptyArray : Option JsValue → Bool
  | some (.vArr xs) => xs.length != 0
  | _ => false

/-- The negation of the guard
`!payload.content || typeof payload.content !== 'string'`
(rabbitmq.services.ts line 223): the value must be truthy and a string,
hence a non-empty string. -/
def isTruthyString : Option JsValue → Bool
  | some (.vStr s) => s != ""
  | _ => false

/-- A decoded payload passes every validation guard of `processMessage`
(rabbitmq.services.ts lines 211-227): it is a truthy value of typeof
'object', its `numbers` property is a non-empty array, and its `content`
property is a truthy string. No guard in the source inspects `api_key`. -/
def passesValidation (v : JsValue) : Bool :=
  (jsTruthy v && jsTypeofObject v) && isNonEmptyArray (jsGet v "numbers")
    && isTruthyString (jsGet v "content")

/-- The spec's example payload
`\x7b"numbers":["628123"],"content":"hi","api_key":"k"\x7d`, decoded. -/
def examplePayload : JsValue :=
  .vObj [("numbers", .vArr [.vStr "628123"]), ("content", .vStr "hi"),
         ("api_key", .vStr "k")]

/-- A decoded payload with non-empty `numbers` and `content` but no
`api_key` field at all. -/
def noApiKeyPayload : JsValue :=
  .vObj [("numbers", .vArr [.vStr "628123"]), ("content", .vStr "hi")]

/-- The Send Outcome of one outbound notification call, as classified by the
spec's data model: Delivered carries the decoded response data, Rejected the
remote error detail (4xx-class explicit rejection), TransportFailure the
retryable error (network error, timeout, 5xx, or an unexpected exception). -/
inductive SendOutcome where
  | delivered : JsValue → SendOutcome
  | rejected : String → SendOutcome
  | transportFailure : String → SendOutcome

/-- Modelled from the spec: `ApiService.sendMessage`
(src/services/api.services.ts is not among the sources; only its call site
in `processMessage` is). Per spec sections 2, 4.2 and 6 the Notification
Sender performs a single outbound HTTP call and returns a structured result
or a classified failure: a `Delivered` or `Rejected` outcome comes back as a
resolved structured result (so that the Consumer Loop's decision table -
Delivered acknowledges, Rejected acknowledges and drops with the remote
detail logged - is realised by the acknowledge-on-resolve code path of
`processMessage`), while a `TransportFailure`, like any unexpected
exception, is a thrown error (rejecting the promise), landing in
`processMessage`'s catch block. -/
def sendMessage : SendOutcome → Except String JsValue
  | .delivered resp => .ok resp
  | .rejected detail =>
      .ok (.vObj [("success", .vBool false), ("message", .vStr detail)])
  | .transportFailure err => .error err

/-- One acknowledgment decision issued to the broker for a message. -/
inductive Resolution where
  | ack : Resolution
  | nack : Bool → Resolution
deriving DecidableEq

/-- Observable effect of one `processMessage` run: the list of resolutions
issued for the envelope (in order), and whether the Notification Sender was
invoked. -/
structure ProcessResult where
  resolutions : List Resolution
  sentToApi : Bool
deriving DecidableEq

/-- The mutable fields of `RabbitMQService`. `heartbeatInterval` is `true`
iff the timer handle is non-null. -/
structure SupState where
  connection : Option Nat
  channel : Option Nat
  isConnecting : Bool
  heartbeatInterval : Bool
  reconnectAttempts : Nat
deriving DecidableEq

/-- `maxReconnectAttempts` field initialiser (rabbitmq.services.ts line 17). -/
def maxReconnectAttempts : Nat := 10

/-- `reconnectDelay` field initialiser, in milliseconds
(rabbitmq.services.ts line 18). -/
def reconnectDelay : Nat := 5000

/-- `isConnected()` (rabbitmq.services.ts lines 293-295): both handles
non-null. -/
def isConnected (s : SupState) : Bool :=
  s.connection.isSome && s.channel.isSome

/-- `stopHeartbeat()` (rabbitmq.services.ts lines 140-145): clear the
interval timer if one is set. -/
def stopHeartbeat (s : SupState) : SupState :=
  { s with heartbeatInterval := false }

/-- `startHeartbeat()` (rabbitmq.services.ts lines 125-138): stop any
existing timer, then install a fresh interval timer. -/
def startHeartbeat (s : SupState) : SupState :=
  { stopHeartbeat s with heartbeatInterval := true }

/-- `connect()` (rabbitmq.services.ts lines 24-76). The `oracle` gives the
outcome of the awaited establishment sequence (amqplib.connect,
createChannel, prefetch, assertQueue): `.ok (c, ch)` when it yields
connection handle `c` and channel handle `ch`, `.error e` when any of the
awaited calls throws `e`. Returns the post state and either `.ok ()` (the
promise resolves) or `.error e` (the promise rejects). -/
def connect (s : SupState) (oracle : Except String (Nat × Nat)) :
    SupState × Except String Unit :=
  if s.isConnecting then
    (s, .error "Connection already in progress")
  else if s.connection.isSome && s.channel.isSome then
    (s, .ok ())
  else
    match oracle with
    | .ok (c, ch) =>
        (startHeartbeat
          { s with connection := some c, channel := some ch,
                   reconnectAttempts := 0, isConnecting := false },
         .ok ())
    | .error e =>
        ({ s with connection := none, channel := none,
                  isConnecting := false },
         .error e)

/-- `startConsuming()` (rabbitmq.services.ts lines 161-186): throws when the
channel is null, otherwise registers the consumer; `consumeOk` is the oracle
for whether `channel.consume` resolves. -/
def startConsuming (s : SupState) (consumeOk : Bool) : Except String Unit :=
  match s.channel with
  | none => .error "Channel is not initialized. Call connect() first."
  | some _ => if consumeOk then .ok () else .error "Failed to start consuming"

/-- Result of running `attemptReconnect` against a finite schedule of broker
outcomes: the process exited with a code, the service reconnected and
resubscribed leaving state `s`, or the supplied schedule ran out with the
procedure still pending in state `s`. -/
inductive ReconnectResult where
  | exited : Nat → SupState → ReconnectResult
  | reconnected : SupState → ReconnectResult
  | pending : SupState → ReconnectResult
deriving DecidableEq

/-- `attemptReconnect()` (rabbitmq.services.ts lines 102-123). Each schedule
entry `(oracle, consumeOk)` gives the broker outcomes of one iteration's
`connect()` and `startConsuming()` calls. Returns the result together with
the list of backoff delays awaited (one `reconnectDelay` entry per
iteration that got past the max-attempts guard). `process.exit(1)` is
modelled as `.exited 1`. -/
def attemptReconnect (s : SupState) :
    List (Except String (Nat × Nat) × Bool) → ReconnectResult × List Nat
  | [] => (.pending s, [])
  | (oracle, consumeOk) :: rest =>
    if maxReconnectAttempts ≤ s.reconnectAttempts then
      (.exited 1 s, [])
    else
      let s1 := { s with reconnectAttempts := s.reconnectAttempts + 1 }
      match connect s1 oracle with
      | (s2, .ok _) =>
        match startConsuming s2 consumeOk with
        | .ok _ => (.reconnected s2, [reconnectDelay])
        | .error _ =>
          let r := attemptReconnect s2 rest
          (r.1, reconnectDelay :: r.2)
      | (s2, .error _) =>
        let r := attemptReconnect s2 rest
        (r.1, reconnectDelay :: r.2)

/-- Body of the connection `error` event handler installed by
`setupConnectionHandlers` (rabbitmq.services.ts lines 81-89), up to the
`attemptReconnect()` call: clear both handles, stop the heartbeat. The
returned Bool records that `attemptReconnect` is then invoked. -/
def onConnectionError (s : SupState) : SupState × Bool :=
  (stopHeartbeat { s with connection := none, channel := none }, true)

/-- Body of the connection `close` event handler installed by
`setupConnectionHandlers` (rabbitmq.services.ts lines 91-99), up to the
`attemptReconnect()` call: clear both handles, stop the heartbeat. The
returned Bool records that `attemptReconnect` is then invoked. -/
def onConnectionClose (s : SupState) : SupState × Bool :=
  (stopHeartbeat { s with connection := none, channel := none }, true)

/-- `checkQueueHealth()` (rabbitmq.services.ts lines 147-159), up to the
`attemptReconnect()` call: when a channel is cached, `channel.checkQueue` is
awaited (`checkFails` is the oracle for it throwing); on failure both
handles are cleared. The returned Bool records whether `attemptReconnect`
is then invoked. -/
def checkQueueHealth (s : SupState) (checkFails : Bool) : SupState × Bool :=
  match s.channel with
  | none => (s, false)
  | some _ =>
    if checkFails then
      ({ s with connection := none, channel := none }, true)
    else
      (s, false)

/-- `processMessage()` (rabbitmq.services.ts lines 188-249) as a function of
the channel handle read at entry (`const channel = this.channel`), the
`JSON.parse` result of the message body (`none` when parsing throws),
the classified outcome of the Sender call, and the channel handle re-read
inside the catch block (`const currentChannel = this.channel`; the two
reads can differ because connection-loss handlers may run at the awaited
suspension points). Returns the resolutions issued and whether the Sender
was invoked. -/
def processMessage (chanAtEntry : Option Nat) (parsed : Option JsValue)
    (outcome : SendOutcome) (chanAtCatch : Option Nat) : ProcessResult :=
  match chanAtEntry with
  | none => ⟨[], false⟩
  | some _ =>
    match parsed with
    | none => ⟨[.ack], false⟩
    | some payload =>
      if !(jsTruthy payload && jsTypeofObject payload) then
        ⟨[.ack], false⟩
      else if !(isNonEmptyArray (jsGet payload "numbers")) then
        ⟨[.ack], false⟩
      else if !(isTruthyString (jsGet payload "content")) then
        ⟨[.ack], false⟩
      else
        match sendMessage outcome with
        | .ok _ => ⟨[.ack], true⟩
        | .error _ =>
          match chanAtCatch with
          | none => ⟨[], true⟩
          | some _ => ⟨[.nack true], true⟩

/-- `processMessage()` run from supervisor state `s` with no interleaved
handler activity, so the catch-time channel read returns the entry value;
the method body contains no assignment to any field, so the state passes
through unchanged. -/
def processMessageS (s : SupState) (parsed : Option JsValue)
    (outcome : SendOutcome) : SupState × ProcessResult :=
  (s, processMessage s.channel parsed outcome s.channel)

/-- The supervisor state after one failed iteration of `attemptReconnect`
from state `s`: the attempt count is incremented before the retry, and the
failed `connect()` clears both handles in its catch block; the heartbeat
field is untouched by this iteration. -/
def afterFailedReconnectIteration (s : SupState) : SupState :=
  ⟨none, none, false, s.heartbeatInterval, s.reconnectAttempts + 1⟩

/-- One observable step of `close()`, in execution order. -/
inductive CloseEvent where
  | stopTimer : CloseEvent
  | closeChannel : CloseEvent
  | closeConnection : CloseEvent
deriving DecidableEq

/-- `close()` (rabbitmq.services.ts lines 251-291). `chanCloseErr` /
`connCloseErr` are the oracles for `channel.close()` / `connection.close()`
throwing (`some e` = throws error message `e`); a close is only attempted
when the corresponding handle is non-null. Returns the post state, the
ordered event trace, the collected error messages, and the overall result:
`.ok ()` when no close error occurred, otherwise the single aggregate
error built from every collected message. -/
def close (s : SupState) (chanCloseErr connCloseErr : Option String) :
    SupState × List CloseEvent × List String × Except String Unit :=
  let s0 := stopHeartbeat s
  let step1 : SupState × List CloseEvent × List String :=
    match s0.channel with
    | none => (s0, [], [])
    | some _ =>
      match chanCloseErr with
      | none => ({ s0 with channel := none }, [.closeChannel], [])
      | some e => ({ s0 with channel := none }, [.closeChannel], [e])
  let s1 := step1.1
  let step2 : SupState × List CloseEvent × List String :=
    match s1.connection with
    | none => (s1, [], [])
    | some _ =>
      match connCloseErr with
      | none => ({ s1 with connection := none }, [.closeConnection], [])
      | some e => ({ s1 with connection := none }, [.closeConnection], [e])
  let errs := step1.2.2 ++ step2.2.2
  (step2.1, .stopTimer :: (step1.2.1 ++ step2.2.1), errs,
   if errs.isEmpty then .ok ()
   else
     .error ("Failed to close RabbitMQ properly: "
       ++ String.intercalate ", " errs))

/-- C6 counterexample: the claim says the attempt count is reset to zero
on every successful `connect()`. It is not: a `connect()` that returns
through the already-connected early return (lines 29-32) succeeds while
leaving a non-zero attempt count untouched - first conjunct, a successful
connect from a connected state with count 1 that keeps count 1. Such a
state is reachable by the reconnect procedure itself - second conjunct:
from a disconnected state with count 0, an iteration whose `connect()`
establishes the handles but whose `startConsuming()` throws recurses with
the handles still set; the next iteration increments the count to 1 and
its retry `connect()` takes the early return, ending reconnected with
count 1, never reset. -/
theorem successful_connect_without_reset :
    connect ⟨some 1, some 2, false, true, 1⟩ (.ok (7, 8))
      = (⟨some 1, some 2, false, true, 1⟩, .ok ())
  ∧ attemptReconnect ⟨none, none, false, false, 0⟩
        [(.ok (1, 2), false), (.ok (7, 8), true)]
      = (.reconnected ⟨some 1, some 2, false, true, 1⟩,
         [reconnectDelay, reconnectDelay]) :=
  ⟨rfl, rfl⟩

/-- C6 as amended: the Reconnect State obeys the state machine with the
reset scoped to establishing connects. First, a `connect()` that runs its
establishment path successfully resets the attempt count to zero (and
installs the handles and heartbeat). Second, a `connect()` that takes the
already-connected early return succeeds but leaves the attempt count (and
all other state) unchanged. Third, once the attempt count has reached
`maxReconnectAttempts` the procedure is terminal: it exits the process
with status 1 (non-zero) without waiting or retrying. Fourth, below the
maximum, an iteration whose `connect()` fails increments the count by one,
waits the fixed `reconnectDelay` (5000 ms) backoff, and recurses on the
post-failure state. Fifth, below the maximum, an iteration from a
disconnected state whose `connect()` and `startConsuming()` both succeed
ends with the service reconnected after a single backoff wait, the count
reset to zero by the establishing `connect()`. -/
theorem reconnect_state_machine :
    (∀ (s : SupState) (c ch : Nat),
      s.isConnecting = false →
      (s.connection.isSome && s.channel.isSome) = false →
      connect s (.ok (c, ch))
        = (⟨some c, some ch, false, true, 0⟩, .ok ()))
  ∧ (∀ (s : SupState) (oracle : Except String (Nat × Nat)),
      s.isConnecting = false →
      (s.connection.isSome && s.channel.isSome) = true →
      (connect s oracle).1.reconnectAttempts = s.reconnectAttempts
        ∧ (connect s oracle).2 = .ok ())
  ∧ (∀ (s : SupState) entry rest,
      maxReconnectAttempts ≤ s.reconnectAttempts →
      attemptReconnect s (entry :: rest) = (.exited 1 s, []))
  ∧ (∀ (s : SupState) (e : String) (consumeOk : Bool) rest,
      s.reconnectAttempts < maxReconnectAttempts →
      s.isConnecting = false →
      (s.connection.isSome && s.channel.isSome) = false →
      attemptReconnect s ((.error e, consumeOk) :: rest)
        = ((attemptReconnect (afterFailedReconnectIteration s) rest).1,
           reconnectDelay
             :: (attemptReconnect (afterFailedReconnectIteration s) rest).2))
  ∧ (∀ (s : SupState) (c ch : Nat) rest,
      s.reconnectAttempts < maxReconnectAttempts →
      s.isConnecting = false →
      (s.connection.isSome && s.channel.isSome) = false →
      attemptReconnect s ((.ok (c, ch), true) :: rest)
        = (.reconnected ⟨some c, some ch, false, true, 0⟩,
           [reconnectDelay])) := by
  refine ⟨?_, ?_, ?_, ?_, ?_⟩
  · intro s c ch h1 h2
    cases s with
    | mk co chn ic hb n =>
      cases h1
      simp [connect, startHeartbeat, stopHeartbeat, h2]
  · intro s oracle h1 h2
    cases s with
    | mk co chn ic hb n =>
      cases h1
      simp [connect, h2]
  · intro s entry rest h
    cases entry with
    | mk oracle consumeOk =>
      simp [attemptReconnect, h]
  · intro s e consumeOk rest h h1 h2
    cases s with
    | mk co chn ic hb n =>
      cases h1
      simp [attemptReconnect, connect, afterFailedReconnectIteration,
        Nat.not_le.mpr h, h2]
  · intro s c ch rest h h1 h2
    cases s with
    | mk co chn ic hb n =>
      cases h1
      simp [attemptReconnect, connect, startHeartbeat, stopHeartbeat,
        startConsuming, Nat.not_le.mpr h, h2]

/-- Witness for C6's amended theorem: each conjunct instantiated at a
concrete state - a fresh connect from three recorded attempts, an
early-return connect from a connected state with one recorded attempt,
exhaustion at ten attempts, one failing iteration from three attempts,
and one fully successful iteration from three attempts. -/
theorem reconnect_state_machine_witness :
    connect ⟨none, none, false, false, 3⟩ (.ok (1, 2))
      = (⟨some 1, some 2, false, true, 0⟩, .ok ())
  ∧ ((connect ⟨some 1, some 2, false, true, 1⟩ (.ok (9, 9))).1.reconnectAttempts
        = 1
      ∧ (connect ⟨some 1, some 2, false, true, 1⟩ (.ok (9, 9))).2 = .ok ())
  ∧ attemptReconnect ⟨none, none, false, false, 10⟩ [(.ok (1, 2), true)]
      = (.exited 1 ⟨none, none, false, false, 10⟩, [])
  ∧ attemptReconnect ⟨none, none, false, false, 3⟩ [(.error "refused", true)]
      = (.pending ⟨none, none, false, false, 4⟩, [reconnectDelay])
  ∧ attemptReconnect ⟨none, none, false, false, 3⟩ [(.ok (1, 2), true)]
      = (.reconnected ⟨some 1, some 2, false, true, 0⟩, [reconnectDelay]) :=
  ⟨reconnect_state_machine.1 ⟨none, none, false, false, 3⟩ 1 2 rfl rfl,
   reconnect_state_machine.2.1 ⟨some 1, some 2, false, true, 1⟩
     (.ok (9, 9)) rfl rfl,
   reconnect_state_machine.2.2.1 ⟨none, none, false, false, 10⟩
     (.ok (1, 2), true) [] (by decide),
   reconnect_state_machine.2.2.2.1 ⟨none, none, false, false, 3⟩ "refused"
     true [] (by decide) rfl rfl,
   reconnect_state_machine.2.2.2.2 ⟨none, none, false, false, 3⟩ 1 2 []
     (by decide) rfl rfl⟩

/-- C9: from a state holding both a channel and a connection, `close()`
always stops the health-probe timer first and then closes the channel
before the connection; a failure of either close is recorded but does not
prevent the attempt to close the other resource; all recorded errors are
reported together in one aggregate error in which every individual message
appears; and when no close error occurs, `close()` succeeds. -/
theorem close_order_and_error_aggregation
    (s : SupState) (c k : Nat) (e1 e2 : String)
    (hch : s.channel = some c) (hco : s.connection = some k) :
    close s none none
      = (⟨none, none, s.isConnecting, false, s.reconnectAttempts⟩,
         [CloseEvent.stopTimer, CloseEvent.closeChannel,
          CloseEvent.closeConnection], [], .ok ())
  ∧ close s (some e1) none
      = (⟨none, none, s.isConnecting, false, s.reconnectAttempts⟩,
         [CloseEvent.stopTimer, CloseEvent.closeChannel,
          CloseEvent.closeConnection], [e1],
         .error ("Failed to close RabbitMQ properly: "
           ++ String.intercalate ", " [e1]))
  ∧ close s none (some e2)
      = (⟨none, none, s.isConnecting, false, s.reconnectAttempts⟩,
         [CloseEvent.stopTimer, CloseEvent.closeChannel,
          CloseEvent.closeConnection], [e2],
         .error ("Failed to close RabbitMQ properly: "
           ++ String.intercalate ", " [e2]))
  ∧ close s (some e1) (some e2)
      = (⟨none, none, s.isConnecting, false, s.reconnectAttempts⟩,
         [CloseEvent.stopTimer, CloseEvent.closeChannel,
          CloseEvent.closeConnection], [e1, e2],
         .error ("Failed to close RabbitMQ properly: "
           ++ String.intercalate ", " [e1, e2])) := by
  cases s with
  | mk co chn ic hb n =>
    cases hch
    cases hco
    refine ⟨rfl, rfl, rfl, rfl⟩

/-- Witness for C9: the all-success and the both-closes-fail cases at a
concrete connected state. -/
theorem close_order_and_error_aggregation_witness :
    close ⟨some 1, some 2, false, true, 0⟩ none none
      = (⟨none, none, false, false, 0⟩,
         [CloseEvent.stopTimer, CloseEvent.closeChannel,
          CloseEvent.closeConnection], [], .ok ())
  ∧ close ⟨some 1, some 2, false, true, 0⟩ (some "chan fail")
        (some "conn fail")
      = (⟨none, none, false, false, 0⟩,
         [CloseEvent.stopTimer, CloseEvent.closeChannel,
          CloseEvent.closeConnection], ["chan fail", "conn fail"],
         .error ("Failed to close RabbitMQ properly: "
           ++ String.intercalate ", " ["chan fail", "conn fail"])) :=
  ⟨(close_order_and_error_aggregation ⟨some 1, some 2, false, true, 0⟩ 2 1
      "chan fail" "conn fail" rfl rfl).1,
   (close_order_and_error_aggregation ⟨some 1, some 2, false, true, 0⟩ 2 1
      "chan fail" "conn fail" rfl rfl).2.2.2⟩

/-- C1: the claim states that every execution path of `processMessage`
resolves the envelope exactly once, explicitly including the paths where
the cached channel handle is null. The code violates this: when the entry
read of `this.channel` is null it logs and returns with no resolution
(lines 191-194), and when the Sender throws and the catch-time re-read of
`this.channel` is null no resolution is issued either (lines 243-247) -
zero resolutions, not exactly one, on both paths. -/
theorem processMessage_null_channel_unresolved :
    (∀ parsed outcome chanAtCatch,
        (processMessage none parsed outcome chanAtCatch).resolutions = [])
  ∧ (processMessage (some 0) (some examplePayload)
        (.transportFailure "timeout") none).resolutions = [] := by
  constructor
  · intro parsed outcome chanAtCatch
    rfl
  · rfl

/-- C2: whenever the entry channel is non-null, a body that is not valid
JSON (`parsed = none`), or a decoded value failing any of the checked
structural guards, makes `processMessage` acknowledge and drop the message
without invoking the Sender - in particular it is never rejected with
requeue. -/
theorem invalid_message_acked_never_requeued (c : Nat) (parsed : Option JsValue)
    (outcome : SendOutcome) (chanAtCatch : Option Nat)
    (h : parsed = none ∨ ∃ v, parsed = some v ∧ passesValidation v = false) :
    processMessage (some c) parsed outcome chanAtCatch
      = ⟨[Resolution.ack], false⟩ := by
  rcases h with h | ⟨v, rfl, hv⟩
  · subst h; rfl
  · cases h1 : (jsTruthy v && jsTypeofObject v) with
    | false => simp [processMessage, h1]
    | true =>
      cases h2 : isNonEmptyArray (jsGet v "numbers") with
      | false => simp [processMessage, h1, h2]
      | true =>
        cases h3 : isTruthyString (jsGet v "content") with
        | false => simp [processMessage, h1, h2, h3]
        | true => simp [passesValidation, h1, h2, h3] at hv

/-- Witness for C2 at a malformed-JSON body and at a structurally invalid
decoded payload (empty `numbers`). -/
theorem invalid_message_acked_never_requeued_witness :
    processMessage (some 0) none (.delivered .vNull) none
      = ⟨[Resolution.ack], false⟩
  ∧ processMessage (some 0) (some (.vObj [("numbers", .vArr []),
        ("content", .vStr "hi"), ("api_key", .vStr "k")]))
        (.delivered .vNull) none
      = ⟨[Resolution.ack], false⟩ :=
  ⟨invalid_message_acked_never_requeued 0 none (.delivered .vNull) none
      (Or.inl rfl),
   invalid_message_acked_never_requeued 0 _ (.delivered .vNull) none
      (Or.inr ⟨_, rfl, by decide⟩)⟩

/-- C3: for a valid payload processed from supervisor state `s` with a
cached channel, a `Delivered` Sender outcome leads to acknowledge, and a
`TransportFailure` (which per the model also stands for any unexpected
thrown error) leads to reject-with-requeue; in both cases the supervisor
state - in particular the cached connection and channel handles - passes
through unchanged, since the method body assigns no field. -/
theorem valid_payload_delivered_acked_transport_requeued
    (s : SupState) (c : Nat) (v : JsValue)
    (hc : s.channel = some c) (hv : passesValidation v = true) :
    (∀ resp, processMessageS s (some v) (.delivered resp)
        = (s, ⟨[Resolution.ack], true⟩))
  ∧ (∀ e, processMessageS s (some v) (.transportFailure e)
        = (s, ⟨[Resolution.nack true], true⟩)) := by
  simp only [passesValidation, Bool.and_eq_true] at hv
  obtain ⟨⟨h1, h2⟩, h3⟩ := hv
  constructor
  · intro resp
    simp [processMessageS, processMessage, hc, h1, h2, h3, sendMessage]
  · intro e
    simp [processMessageS, processMessage, hc, h1, h2, h3, sendMessage]

/-- Witness for C3 at the spec's example payload. -/
theorem valid_payload_delivered_acked_transport_requeued_witness :
    processMessageS ⟨some 1, some 2, false, true, 0⟩ (some examplePayload)
        (.delivered (.vObj [("success", .vBool true)]))
      = (⟨some 1, some 2, false, true, 0⟩, ⟨[Resolution.ack], true⟩)
  ∧ processMessageS ⟨some 1, some 2, false, true, 0⟩ (some examplePayload)
        (.transportFailure "network timeout")
      = (⟨some 1, some 2, false, true, 0⟩, ⟨[Resolution.nack true], true⟩) :=
  ⟨(valid_payload_delivered_acked_transport_requeued
      ⟨some 1, some 2, false, true, 0⟩ 2 examplePayload rfl (by decide)).1 _,
   (valid_payload_delivered_acked_transport_requeued
      ⟨some 1, some 2, false, true, 0⟩ 2 examplePayload rfl (by decide)).2 _⟩

/-- C4: for a valid payload whose Sender call is classified `Rejected`
(remote explicitly reports the request invalid, 4xx-class), the Sender
resolves with the classified result, so `processMessage` acknowledges and
drops the message; it is not rejected with requeue. -/
theorem rejected_outcome_acked_dropped
    (s : SupState) (c : Nat) (v : JsValue) (detail : String)
    (hc : s.channel = some c) (hv : passesValidation v = true) :
    processMessageS s (some v) (.rejected detail)
      = (s, ⟨[Resolution.ack], true⟩) := by
  simp only [passesValidation, Bool.and_eq_true] at hv
  obtain ⟨⟨h1, h2⟩, h3⟩ := hv
  simp [processMessageS, processMessage, hc, h1, h2, h3, sendMessage]

/-- Witness for C4 at the spec's example payload. -/
theorem rejected_outcome_acked_dropped_witness :
    processMessageS ⟨some 1, some 2, false, true, 0⟩ (some examplePayload)
        (.rejected "invalid api key")
      = (⟨some 1, some 2, false, true, 0⟩, ⟨[Resolution.ack], true⟩) :=
  rejected_outcome_acked_dropped ⟨some 1, some 2, false, true, 0⟩ 2
    examplePayload "invalid api key" rfl (by decide)

/-- C5 counterexample: a decoded payload with non-empty `numbers` and
`content` but no `api_key` field passes every validation guard, and
`processMessage` invokes the Sender with it (`sentToApi = true`) and
acknowledges - the message is sent, not dropped, refuting the claim that
a payload with `api_key` absent is rejected by validation and dropped. -/
theorem missing_api_key_payload_is_sent :
    passesValidation noApiKeyPayload = true
  ∧ processMessage (some 0) (some noApiKeyPayload)
        (.delivered (.vObj [("success", .vBool true)])) (some 0)
      = ⟨[Resolution.ack], true⟩ := by
  constructor
  · decide
  · rfl

/-- C5 as amended: validation enforces only the two checked invariants -
`numbers` a non-empty array and `content` a truthy string; violating either
makes `processMessage` acknowledge and drop without invoking the Sender -
while `api_key` presence is not checked: a payload lacking `api_key`
passes validation (and is therefore sent). -/
theorem validation_enforces_numbers_and_content_only :
    (∀ (c : Nat) (v : JsValue) (outcome : SendOutcome)
        (chanAtCatch : Option Nat),
      isNonEmptyArray (jsGet v "numbers") = false
          ∨ isTruthyString (jsGet v "content") = false →
      processMessage (some c) (some v) outcome chanAtCatch
        = ⟨[Resolution.ack], false⟩)
  ∧ passesValidation noApiKeyPayload = true := by
  constructor
  · intro c v outcome chanAtCatch h
    cases h1 : (jsTruthy v && jsTypeofObject v) with
    | false => simp [processMessage, h1]
    | true =>
      cases h2 : isNonEmptyArray (jsGet v "numbers") with
      | false => simp [processMessage, h1, h2]
      | true =>
        cases h3 : isTruthyString (jsGet v "content") with
        | false => simp [processMessage, h1, h2, h3]
        | true =>
          rcases h with h | h
          · rw [h] at h2; cases h2
          · rw [h] at h3; cases h3
  · decide

/-- Witness for C5's amended theorem at an empty `numbers` array. -/
theorem validation_enforces_numbers_and_content_only_witness :
    processMessage (some 0) (some (.vObj [("numbers", .vArr []),
        ("content", .vStr "hi"), ("api_key", .vStr "k")]))
        (.delivered .vNull) none
      = ⟨[Resolution.ack], false⟩ :=
  validation_enforces_numbers_and_content_only.1 0 _ (.delivered .vNull) none
    (Or.inl (by decide))

/-- C7: calling `connect()` while a connection attempt is already in
progress fails with the AlreadyConnecting-style error
`Connection already in progress` and leaves the whole supervisor state -
connection, channel, reconnect-attempt count, heartbeat - unchanged. -/
theorem connect_guard_already_connecting
    (s : SupState) (oracle : Except String (Nat × Nat))
    (h : s.isConnecting = true) :
    connect s oracle = (s, .error "Connection already in progress") := by
  simp [connect, h]

/-- Witness for C7. -/
theorem connect_guard_already_connecting_witness :
    connect ⟨none, none, true, false, 4⟩ (.ok (1, 2))
      = (⟨none, none, true, false, 4⟩,
         .error "Connection already in progress") :=
  connect_guard_already_connecting ⟨none, none, true, false, 4⟩ (.ok (1, 2))
    rfl

/-- C8 counterexample: from a connected state with an active heartbeat
timer, the failure branch of `checkQueueHealth` and the connection `error`
handler do not perform the same state change - the handler stops the
heartbeat timer, `checkQueueHealth` leaves it running. -/
theorem health_check_failure_differs_from_handlers :
    (checkQueueHealth ⟨some 1, some 2, false, true, 0⟩ true).1
      ≠ (onConnectionError ⟨some 1, some 2, false, true, 0⟩).1 := by
  decide

/-- C8 as amended: the failure branch of `checkQueueHealth` clears the
cached connection and channel handles and triggers the reconnect procedure
exactly as the connection `error` and `close` handlers do, except that it
does not stop the heartbeat timer (the timer field is left unchanged),
whereas both handlers do stop it; the two handlers themselves are
identical. -/
theorem health_check_failure_matches_handlers_except_heartbeat
    (s : SupState) (c : Nat) (hc : s.channel = some c) :
    (checkQueueHealth s true).1.connection = none
  ∧ (checkQueueHealth s true).1.channel = none
  ∧ (checkQueueHealth s true).2 = true
  ∧ (checkQueueHealth s true).1.heartbeatInterval = s.heartbeatInterval
  ∧ (onConnectionError s).1 = stopHeartbeat (checkQueueHealth s true).1
  ∧ (onConnectionError s).2 = (checkQueueHealth s true).2
  ∧ onConnectionClose s = onConnectionError s := by
  cases s with
  | mk co ch ic hb n =>
    cases hc
    simp [checkQueueHealth, onConnectionError, onConnectionClose,
      stopHeartbeat]

/-- Witness for C8's amended theorem. -/
theorem health_check_failure_matches_handlers_except_heartbeat_witness :
    (checkQueueHealth ⟨some 1, some 2, false, true, 5⟩ true).1.connection
        = none
  ∧ (checkQueueHealth ⟨some 1, some 2, false, true, 5⟩ true).1.channel = none
  ∧ (checkQueueHealth ⟨some 1, some 2, false, true, 5⟩ true).2 = true
  ∧ (checkQueueHealth ⟨some 1, some 2, false, true, 5⟩ true).1.heartbeatInterval
        = (⟨some 1, some 2, false, true, 5⟩ : SupState).heartbeatInterval
  ∧ (onConnectionError ⟨some 1, some 2, false, true, 5⟩).1
        = stopHeartbeat (checkQueueHealth ⟨some 1, some 2, false, true, 5⟩ true).1
  ∧ (onConnectionError ⟨some 1, some 2, false, true, 5⟩).2
        = (checkQueueHealth ⟨some 1, some 2, false, true, 5⟩ true).2
  ∧ onConnectionClose ⟨some 1, some 2, false, true, 5⟩
        = onConnectionError ⟨some 1, some 2, false, true, 5⟩ :=
  health_check_failure_matches_handlers_except_heartbeat
    ⟨some 1, some 2, false, true, 5⟩ 2 rfl

/-- C10 counterexample: with both handles non-null but `isConnecting` set
(reachable, since `connect` has awaited suspension points after both
handles are assigned and before the finally clause clears the flag),
`connect()` does not return normally - the `isConnecting` guard fires
first and it throws. -/
theorem connect_throws_despite_both_handles_non_null :
    connect ⟨some 1, some 2, true, true, 3⟩ (.ok (7, 8))
      = (⟨some 1, some 2, true, true, 3⟩,
         .error "Connection already in progress") := rfl

/-- C10 as amended: when no connection attempt is in progress and both the
connection and the channel handle are non-null, `connect()` is an
idempotent no-op - it returns normally and leaves the entire state
(handles, reconnect-attempt count, heartbeat timer) unchanged. -/
theorem connect_noop_when_connected
    (s : SupState) (oracle : Except String (Nat × Nat))
    (h1 : s.isConnecting = false) (h2 : isConnected s = true) :
    connect s oracle = (s, .ok ()) := by
  have h2' : (s.connection.isSome && s.channel.isSome) = true := h2
  simp [connect, h1, h2']

/-- Witness for C10's amended theorem. -/
theorem connect_noop_when_connected_witness :
    connect ⟨some 1, some 2, false, true, 3⟩ (.error "unreachable")
      = (⟨some 1, some 2, false, true, 3⟩, .ok ()) :=
  connect_noop_when_connected ⟨some 1, some 2, false, true, 3⟩
    (.error "unreachable") rfl rfl

end RabbitMQ
